import Mathlib

/-!
A shallow embedding of the deferred GL command-queue executor in
ext/native/thin3d/GLQueueRunner.cpp.

Device calls issued by the executor are recorded as a trace of `GLCall`
values, in the order the source issues them; the effect of a trace on the
device state that the claims are concerned with (active texture unit,
enabled vertex-attribute arrays, buffer bindings, scissor enable, bound
framebuffers) is given by `applyCall` / `applyCalls`.  Executor-internal
caches (`currentDrawHandle_`, `currentReadHandle_`, `nameCache_`, the
per-pass locals) are threaded explicitly as state.
-/

/-- OpenGL enum value GL_TEXTURE0 (0x84C0). -/
def GL_TEXTURE0 : Nat := 33984

/-- OpenGL enum value GL_TEXTURE_2D (0x0DE1). -/
def GL_TEXTURE_2D : Nat := 3553

/-- OpenGL enum value GL_ARRAY_BUFFER (0x8892). -/
def GL_ARRAY_BUFFER : Nat := 34962

/-- OpenGL enum value GL_ELEMENT_ARRAY_BUFFER (0x8893). -/
def GL_ELEMENT_ARRAY_BUFFER : Nat := 34963

/-- OpenGL bit constant GL_COLOR_BUFFER_BIT (0x4000). -/
def GL_COLOR_BUFFER_BIT : Nat := 16384

/-- OpenGL bit constant GL_DEPTH_BUFFER_BIT (0x0100). -/
def GL_DEPTH_BUFFER_BIT : Nat := 256

/-- OpenGL bit constant GL_STENCIL_BUFFER_BIT (0x0400). -/
def GL_STENCIL_BUFFER_BIT : Nat := 1024

/-- OpenGL enum value GL_SCISSOR_TEST (0x0C11). -/
def GL_SCISSOR_TEST : Nat := 3089

/-- OpenGL enum value GL_DEPTH_TEST (0x0B71). -/
def GL_DEPTH_TEST : Nat := 2929

/-- OpenGL enum value GL_BLEND (0x0BE2). -/
def GL_BLEND : Nat := 3042

/-- OpenGL enum value GL_STENCIL_TEST (0x0B90). -/
def GL_STENCIL_TEST : Nat := 2960

/-- OpenGL enum value GL_CULL_FACE (0x0B44). -/
def GL_CULL_FACE : Nat := 2884

/-- OpenGL enum value GL_DITHER (0x0BD0). -/
def GL_DITHER : Nat := 3024

/-- OpenGL enum value GL_FRAMEBUFFER (0x8D40). -/
def GL_FRAMEBUFFER : Nat := 36160

/-- OpenGL enum value GL_READ_FRAMEBUFFER (0x8CA8). -/
def GL_READ_FRAMEBUFFER : Nat := 36008

/-- OpenGL enum value GL_DRAW_FRAMEBUFFER (0x8CA9). -/
def GL_DRAW_FRAMEBUFFER : Nat := 36009

/-- OpenGL enum value GL_RENDERBUFFER (0x8D41). -/
def GL_RENDERBUFFER : Nat := 36161

/-- OpenGL enum value GL_FRAGMENT_SHADER (0x8B30). -/
def GL_FRAGMENT_SHADER : Nat := 35632

/-- OpenGL enum value GL_VERTEX_SHADER (0x8B31). -/
def GL_VERTEX_SHADER : Nat := 35633

/-- The fixed texture-name batch size, TEXCACHE_NAME_CACHE_SIZE (line 9). -/
def TEXCACHE_NAME_CACHE_SIZE : Nat := 16

/-- The value (GLuint)-1 used to initialize the buffer bind caches. -/
def UINT32_MAX : Nat := 4294967295

/-- Capability flags read by the executor: the fields of `gl_extensions`
consulted in GLQueueRunner.cpp plus the USING_GLES2 build-time flag,
gathered into one runtime descriptor. -/
structure GLCaps where
  usingGLES2 : Bool
  IsGLES : Bool
  GLES3 : Bool
  ARB_framebuffer_object : Bool
  EXT_framebuffer_object : Bool
  NV_framebuffer_blit : Bool
  OES_packed_depth_stencil : Bool
  OES_depth24 : Bool
  ARB_copy_image : Bool
  NV_copy_image : Bool
deriving DecidableEq

/-- GLRTexture: target kind and native handle. -/
structure GLRTexture where
  target : Nat
  texture : Nat
deriving DecidableEq

/-- GLRBuffer: target kind and native handle. -/
structure GLRBuffer where
  target_ : Nat
  buffer : Nat
deriving DecidableEq

/-- GLRShader: stage, native handle and the valid flag. -/
structure GLRShader where
  shader : Nat
  valid : Bool
deriving DecidableEq

/-- GLRProgram: native handle, attribute-semantic bindings (location, attrib
name id), uniform queries (name ids resolved after link), one-shot
initializers (type, value), and the resolved uniform-location cache.
Uniform names are represented by numeric ids. -/
structure GLRProgram where
  program : Nat
  semantics_ : List (Nat × Nat)
  queries_ : List Nat
  initialize_ : List (Nat × Int)
  uniformCache : List (Nat × Int)
deriving DecidableEq

/-- Modelled from the spec: GLRProgram::GetUniformLoc (declared in the
GLRenderManager header, which is not under src/) resolves a uniform name
against the program; a name that is not found yields -1, which the uniform
commands treat as a silent no-op. -/
def GLRProgram.GetUniformLoc (p : GLRProgram) (name : Nat) : Int :=
  (p.uniformCache.lookup name).getD (-1)

/-- GLRFramebuffer: dimensions, FBO handle, color texture and the
depth/stencil renderbuffer handles.  A handle value of 0 means the
corresponding renderbuffer was not allocated for this framebuffer.
`framebuf` is a further member declared in the header and referenced by
PerformBindFramebufferAsRenderTarget (line 745); it is distinct from
`handle` in this snapshot of the source. -/
structure GLRFramebuffer where
  width : Int
  height : Int
  handle : Nat
  color_texture : Nat
  z_stencil_buffer : Nat
  z_buffer : Nat
  stencil_buffer : Nat
  framebuf : Nat
deriving DecidableEq

/-- One vertex-attribute descriptor of an input layout. -/
structure GLRInputLayoutEntry where
  location : Nat
  count : Nat
  type : Nat
  normalized : Bool
  stride : Nat
  offset : Nat
deriving DecidableEq

/-- GLRInputLayout: attribute descriptors plus the derived semantic bitmask. -/
structure GLRInputLayout where
  entries : List GLRInputLayoutEntry
  semanticsMask_ : Nat
deriving DecidableEq

/-- A device call issued by the executor.  Arguments are recorded as they
are passed at the call site; float-valued arguments carried through
unchanged (clear depth, blend color, uniform payloads, anisotropy, LOD) are
represented by opaque numeric tokens.  The `variant` argument of the copy
call distinguishes glCopyImageSubDataOES (0) / glCopyImageSubData (1) /
glCopyImageSubDataNV (2). -/
inductive GLCall where
  | glEnable (cap : Nat)
  | glDisable (cap : Nat)
  | glDepthMask (write : Bool)
  | glDepthFunc (func : Nat)
  | glBlendEquationSeparate (funcColor funcAlpha : Nat)
  | glBlendFuncSeparate (srcColor dstColor srcAlpha dstAlpha : Nat)
  | glColorMask (r g b a : Bool)
  | glClearColor (color : Nat)
  | glClearDepth (z : Nat)
  | glClearStencil (s : Nat)
  | glClear (mask : Nat)
  | glBlendColor (color : Nat)
  | glViewport (x y w h : Int)
  | glDepthRange (minZ maxZ : Nat)
  | glScissor (x y w h : Int)
  | glUniformF (loc : Int) (count : Nat) (v : Nat)
  | glUniformI (loc : Int) (count : Nat) (v : Nat)
  | glUniformMatrix4fv (loc : Int) (m : Nat)
  | glStencilFunc (func ref compareMask : Nat)
  | glStencilOp (sFail zFail pass : Nat)
  | glStencilMask (writeMask : Nat)
  | glActiveTexture (unit : Nat)
  | glBindTexture (target tex : Nat)
  | glUseProgram (program : Nat)
  | glEnableVertexAttribArray (i : Nat)
  | glDisableVertexAttribArray (i : Nat)
  | glVertexAttribPointer (location count type : Nat) (normalized : Bool) (stride ptr : Nat)
  | glBindBuffer (target buf : Nat)
  | glGenerateMipmap (target : Nat)
  | glDrawArrays (mode first count : Nat)
  | glDrawElements (mode count indexType indices : Nat)
  | glTexParameteri (target pname param : Nat)
  | glTexParameterf (target pname param : Nat)
  | glBindVertexArray (array : Nat)
  | glFrontFace (mode : Nat)
  | glCullFace (mode : Nat)
  | glBindFramebuffer (target name : Nat)
  | glAttachShader (program shader : Nat)
  | glBindAttribLocation (program location attrib : Nat)
  | glLinkProgram (program : Nat)
  | glCopyImageSubData (variant : Nat) (srcName srcTarget srcLevel : Nat)
      (srcX srcY srcZ : Int) (dstName dstTarget dstLevel : Nat)
      (dstX dstY dstZ : Int) (width height depth : Int)
deriving DecidableEq

/-- The device state the claims inspect: active texture unit (raw enum
value last passed to glActiveTexture), which vertex-attribute arrays are
enabled, the two dedicated buffer bindings, the scissor-test enable, the
bound vertex array, and the bound draw/read framebuffers. -/
structure DeviceState where
  activeUnit : Nat
  attrEnabled : Nat → Bool
  arrayBuffer : Nat
  elemArrayBuffer : Nat
  scissorEnabled : Bool
  boundVertexArray : Nat
  drawFramebuffer : Nat
  readFramebuffer : Nat

/-- Effect of a single device call on the tracked device state.  Calls that
do not touch the tracked state leave it unchanged. -/
def applyCall (d : DeviceState) : GLCall → DeviceState
  | GLCall.glEnable cap =>
    if cap = GL_SCISSOR_TEST then { d with scissorEnabled := true } else d
  | GLCall.glDisable cap =>
    if cap = GL_SCISSOR_TEST then { d with scissorEnabled := false } else d
  | GLCall.glActiveTexture unit =>
    { d with activeUnit := unit }
  | GLCall.glEnableVertexAttribArray i =>
    { d with attrEnabled := fun j => if j = i then true else d.attrEnabled j }
  | GLCall.glDisableVertexAttribArray i =>
    { d with attrEnabled := fun j => if j = i then false else d.attrEnabled j }
  | GLCall.glBindBuffer target buf =>
    if target = GL_ARRAY_BUFFER then { d with arrayBuffer := buf }
    else if target = GL_ELEMENT_ARRAY_BUFFER then { d with elemArrayBuffer := buf }
    else d
  | GLCall.glBindVertexArray array =>
    { d with boundVertexArray := array }
  | GLCall.glBindFramebuffer target name =>
    if target = GL_FRAMEBUFFER then { d with drawFramebuffer := name, readFramebuffer := name }
    else if target = GL_DRAW_FRAMEBUFFER then { d with drawFramebuffer := name }
    else if target = GL_READ_FRAMEBUFFER then { d with readFramebuffer := name }
    else d
  | _ => d

/-- Effect of a trace of device calls, applied in order. -/
def applyCalls (d : DeviceState) (cs : List GLCall) : DeviceState :=
  cs.foldl applyCall d

/-- Supply of fresh native object names, as handed out by the glGen*
family; generated names are never 0. -/
structure NameGen where
  next : Nat
deriving DecidableEq

/-- Allocate one fresh (nonzero) native name. -/
def NameGen.alloc (g : NameGen) : Nat × NameGen :=
  (g.next + 1, { next := g.next + 1 })

/-- Allocate a batch of n fresh names, as glGenTextures(n, ...) does. -/
def genNames : Nat → NameGen → List Nat × NameGen
  | 0, g => ([], g)
  | n + 1, g =>
    let p := g.alloc
    let q := genNames n p.2
    (p.1 :: q.1, q.2)

/-- Executor state carried across steps: the two cached framebuffer bind
handles, current target dimensions, the current framebuffer members, the
process-wide default-FBO override `g_defaultFBO`, the shared VAO, and the
texture-name cache of AllocTextureName. -/
structure GLQueueRunnerState where
  currentDrawHandle_ : Nat
  currentReadHandle_ : Nat
  curFBWidth_ : Int
  curFBHeight_ : Int
  targetWidth_ : Int
  targetHeight_ : Int
  curFB_ : Option GLRFramebuffer
  curFramebuffer_ : Option GLRFramebuffer
  g_defaultFBO : Nat
  globalVAO_ : Nat
  nameCache_ : List Nat
deriving DecidableEq

/-- Which of the two cached bind handles fbo_get_fb_target selects. -/
inductive FBCache where
  | draw
  | read
deriving DecidableEq

/-- GLQueueRunner::fbo_get_fb_target (lines 832-851): picks the bind target
enum and which cached handle goes with it, depending on whether separate
read/draw targets are supported. -/
def fbo_get_fb_target (caps : GLCaps) (read : Bool) : FBCache × Nat :=
  let supportsBlit :=
    if caps.IsGLES then caps.GLES3 || caps.NV_framebuffer_blit
    else caps.ARB_framebuffer_object
  if supportsBlit then
    if read then (FBCache.read, GL_READ_FRAMEBUFFER)
    else (FBCache.draw, GL_DRAW_FRAMEBUFFER)
  else (FBCache.draw, GL_FRAMEBUFFER)

/-- GLQueueRunner::fbo_bind_fb_target (lines 853-868): binds `name` to the
selected target only when it differs from the cached handle, and updates
the cache.  In a GLES2 build without core/ARB framebuffer objects the
source issues no call inside the branch but still updates the cache. -/
def fbo_bind_fb_target (caps : GLCaps) (st : GLQueueRunnerState) (read : Bool)
    (name : Nat) : GLQueueRunnerState × List GLCall :=
  let tc := fbo_get_fb_target caps read
  let cached := match tc.1 with
    | FBCache.draw => st.currentDrawHandle_
    | FBCache.read => st.currentReadHandle_
  if cached ≠ name then
    let calls :=
      if caps.ARB_framebuffer_object || caps.IsGLES then
        [GLCall.glBindFramebuffer tc.2 name]
      else if !caps.usingGLES2 then
        [GLCall.glBindFramebuffer tc.2 name]
      else []
    let st' := match tc.1 with
      | FBCache.draw => { st with currentDrawHandle_ := name }
      | FBCache.read => { st with currentReadHandle_ := name }
    (st', calls)
  else (st, [])

/-- GLQueueRunner::fbo_unbind (lines 870-889): binds GL_FRAMEBUFFER to the
process-wide g_defaultFBO override, then zeroes both cached handles
unconditionally. -/
def fbo_unbind (caps : GLCaps) (st : GLQueueRunnerState) :
    GLQueueRunnerState × List GLCall :=
  let calls :=
    if !caps.usingGLES2 then
      if caps.ARB_framebuffer_object || caps.IsGLES then
        [GLCall.glBindFramebuffer GL_FRAMEBUFFER st.g_defaultFBO]
      else if caps.EXT_framebuffer_object then
        [GLCall.glBindFramebuffer GL_FRAMEBUFFER st.g_defaultFBO]
      else []
    else [GLCall.glBindFramebuffer GL_FRAMEBUFFER st.g_defaultFBO]
  ({ st with currentDrawHandle_ := 0, currentReadHandle_ := 0 }, calls)

/-- The CREATE_SHADER case of GLQueueRunner::RunInitSteps (lines 136-159).
`newName` is the handle returned by glCreateShader and `compileOk` the
GL_COMPILE_STATUS the device reports.  On failure the source deletes the
handle, zeroes only its local copy, logs, and sets valid to false - and
then line 158 unconditionally sets valid to true. -/
def runInitStepCreateShader (shaderObj : GLRShader) (newName : Nat)
    (compileOk : Bool) : GLRShader :=
  let obj := { shaderObj with shader := newName }
  let obj := if !compileOk then { obj with valid := false } else obj
  { obj with valid := true }

/-- The CREATE_PROGRAM case of GLQueueRunner::RunInitSteps (lines 62-134).
`progName` is the handle from glCreateProgram, `linkOk` the reported
GL_LINK_STATUS and `uniformLoc` the device's glGetUniformLocation.  A step
with zero shaders hits the fatal assertion (modelled as `Except.error`);
link failure is recoverable and skips only the post-link work (uniform
queries; the one-shot glUniform1i initializers are not modelled further). -/
def runInitStepCreateProgram (program : GLRProgram) (progName : Nat)
    (shaders : List GLRShader) (linkOk : Bool) (uniformLoc : Nat → Int) :
    Except String (GLRProgram × List GLCall) :=
  let program := { program with program := progName }
  if !(decide (shaders.length > 0)) then
    Except.error "cannot create a program with zero shaders"
  else
    let calls := shaders.map (fun s => GLCall.glAttachShader progName s.shader)
      ++ program.semantics_.map (fun p => GLCall.glBindAttribLocation progName p.1 p.2)
      ++ [GLCall.glLinkProgram progName]
    if !linkOk then
      Except.ok (program, calls)
    else
      let program := { program with
        uniformCache := program.queries_.map (fun nm => (nm, uniformLoc nm)) }
      Except.ok (program, calls ++ [GLCall.glUseProgram progName])

/-- GLQueueRunner::fbo_ext_create (lines 773-829), the EXT_framebuffer_object
fallback: always the combined 24-bit-depth/8-bit-stencil single
renderbuffer layout. -/
def fbo_ext_create (fbo : GLRFramebuffer) (g : NameGen) (st : GLQueueRunnerState) :
    GLRFramebuffer × NameGen × GLQueueRunnerState :=
  let ph := g.alloc
  let pc := ph.2.alloc
  let fbo := { fbo with handle := ph.1, color_texture := pc.1,
                        stencil_buffer := 0, z_buffer := 0 }
  let pz := pc.2.alloc
  let fbo := { fbo with z_stencil_buffer := pz.1 }
  (fbo, pz.2, { st with currentDrawHandle_ := fbo.handle,
                        currentReadHandle_ := fbo.handle })

/-- GLQueueRunner::InitCreateFramebuffer (lines 199-305).  Selects the
depth/stencil renderbuffer layout: on GLES, combined when
OES_packed_depth_stencil is available and otherwise separate depth and
8-bit stencil renderbuffers; on desktop, combined.  In a non-GLES2 build
without ARB but with EXT framebuffer objects the source calls
fbo_ext_create and then falls through into the main path; without either
it returns early. -/
def InitCreateFramebuffer (caps : GLCaps) (fbo : GLRFramebuffer) (g : NameGen)
    (st : GLQueueRunnerState) : GLRFramebuffer × NameGen × GLQueueRunnerState :=
  if !caps.usingGLES2 && !caps.ARB_framebuffer_object && !caps.EXT_framebuffer_object then
    (fbo, g, st)
  else
    let r :=
      if !caps.usingGLES2 && !caps.ARB_framebuffer_object && caps.EXT_framebuffer_object then
        fbo_ext_create fbo g st
      else (fbo, g, st)
    let fbo := r.1
    let g := r.2.1
    let st := r.2.2
    let ph := g.alloc
    let pc := ph.2.alloc
    let fbo := { fbo with handle := ph.1, color_texture := pc.1 }
    let r2 :=
      if caps.IsGLES then
        if caps.OES_packed_depth_stencil then
          let fbo := { fbo with stencil_buffer := 0, z_buffer := 0 }
          let pz := pc.2.alloc
          ({ fbo with z_stencil_buffer := pz.1 }, pz.2)
        else
          let fbo := { fbo with z_stencil_buffer := 0 }
          let pz := pc.2.alloc
          let fbo := { fbo with z_buffer := pz.1 }
          let ps := pz.2.alloc
          ({ fbo with stencil_buffer := ps.1 }, ps.2)
      else
        let fbo := { fbo with stencil_buffer := 0, z_buffer := 0 }
        let pz := pc.2.alloc
        ({ fbo with z_stencil_buffer := pz.1 }, pz.2)
    let fbo := r2.1
    (fbo, r2.2, { st with currentDrawHandle_ := fbo.handle,
                          currentReadHandle_ := fbo.handle })

/-- What the GLRFramebuffer destructor releases. -/
structure FBDeleteLog where
  deletedFramebuffers : List Nat
  deletedRenderbuffers : List Nat
  deletedTextures : List Nat
deriving DecidableEq

/-- The GLRFramebuffer destructor (lines 891-925): under core/ARB or GLES it
deletes the FBO handle (when nonzero) and then each of the combined,
depth and stencil renderbuffers whose handle is nonzero; under the EXT
fallback (non-GLES2 builds only) the same renderbuffer deletions; the
color texture is always deleted. -/
def GLRFramebuffer.destroy (caps : GLCaps) (fbo : GLRFramebuffer) : FBDeleteLog :=
  if caps.ARB_framebuffer_object || caps.IsGLES then
    { deletedFramebuffers := if fbo.handle ≠ 0 then [fbo.handle] else []
      deletedRenderbuffers :=
        (if fbo.z_stencil_buffer ≠ 0 then [fbo.z_stencil_buffer] else [])
        ++ (if fbo.z_buffer ≠ 0 then [fbo.z_buffer] else [])
        ++ (if fbo.stencil_buffer ≠ 0 then [fbo.stencil_buffer] else [])
      deletedTextures := [fbo.color_texture] }
  else if caps.EXT_framebuffer_object && !caps.usingGLES2 then
    { deletedFramebuffers := if fbo.handle ≠ 0 then [fbo.handle] else []
      deletedRenderbuffers :=
        (if fbo.z_stencil_buffer ≠ 0 then [fbo.z_stencil_buffer] else [])
        ++ (if fbo.z_buffer ≠ 0 then [fbo.z_buffer] else [])
        ++ (if fbo.stencil_buffer ≠ 0 then [fbo.stencil_buffer] else [])
      deletedTextures := [fbo.color_texture] }
  else
    { deletedFramebuffers := []
      deletedRenderbuffers := []
      deletedTextures := [fbo.color_texture] }

/-- GLQueueRunner::AllocTextureName (lines 759-767): when the name cache is
empty, request a fixed-size batch of names; hand out the last cached name.
Returns (name, new state, new generator, number of batch-generation calls
made, 0 or 1). -/
def AllocTextureName (st : GLQueueRunnerState) (g : NameGen) :
    Nat × GLQueueRunnerState × NameGen × Nat :=
  if st.nameCache_.isEmpty then
    let p := genNames TEXCACHE_NAME_CACHE_SIZE g
    (p.1.getLastD 0, { st with nameCache_ := p.1.dropLast }, p.2, 1)
  else
    (st.nameCache_.getLastD 0, { st with nameCache_ := st.nameCache_.dropLast }, g, 0)

/-- N successive calls to AllocTextureName; the final Nat accumulates the
number of underlying batch-generation calls. -/
def allocTextureNames : Nat → GLQueueRunnerState → NameGen →
    GLQueueRunnerState × NameGen × Nat
  | 0, st, g => (st, g, 0)
  | n + 1, st, g =>
    let r := AllocTextureName st g
    let r2 := allocTextureNames n r.2.1 r.2.2.1
    (r2.1, r2.2.1, r.2.2.2 + r2.2.2)

/-- A 2D rectangle as used by copy steps. -/
structure GLRect2D where
  x : Int
  y : Int
  w : Int
  h : Int
deriving DecidableEq

/-- A 2D offset as used by copy steps. -/
structure GLOffset2D where
  x : Int
  y : Int
deriving DecidableEq

/-- A COPY step.  The destination framebuffer field `dst` is modelled from
the spec (the GLRStep declaration lives in the GLRenderManager header,
which is not under src/): a CopyStep carries independently supplied source
and destination Framebuffers. -/
structure GLRStepCopy where
  src : GLRFramebuffer
  dst : GLRFramebuffer
  aspectMask : Nat
  srcRect : GLRect2D
  dstPos : GLOffset2D
deriving DecidableEq

/-- GLQueueRunner::PerformCopy (lines 670-722).  Note line 679 of the
source reads `GLRFramebuffer *dst = step.copy.src;`, so both locals come
from the step's source field.  The depth-aspect arm hits
`_assert_msg_(G3D, false, ...)`, the fatal path, modelled as
`Except.error`; nothing after it executes.  The copy call itself picks
glCopyImageSubDataOES in GLES2 builds, else glCopyImageSubData under
ARB_copy_image, else the NV variant, else nothing. -/
def PerformCopy (caps : GLCaps) (step : GLRStepCopy) : Except String (List GLCall) :=
  let srcRect := step.srcRect
  let dstPos := step.dstPos
  let src := step.src
  let dst := step.src
  let srcLevel : Nat := 0
  let dstLevel : Nat := 0
  let srcZ : Int := 0
  let dstZ : Int := 0
  let depth : Int := 1
  let texes : Except String (Nat × Nat × Nat) :=
    if step.aspectMask = GL_COLOR_BUFFER_BIT then
      Except.ok (src.color_texture, dst.color_texture, GL_TEXTURE_2D)
    else if step.aspectMask = GL_DEPTH_BUFFER_BIT then
      Except.error "depth copies not yet supported - soon"
    else
      Except.ok (0, 0, GL_TEXTURE_2D)
  match texes with
  | Except.error e => Except.error e
  | Except.ok (srcTex, dstTex, tgt) =>
    if caps.usingGLES2 then
      Except.ok [GLCall.glCopyImageSubData 0 srcTex tgt srcLevel srcRect.x srcRect.y srcZ
        dstTex tgt dstLevel dstPos.x dstPos.y dstZ srcRect.w srcRect.h depth]
    else if caps.ARB_copy_image then
      Except.ok [GLCall.glCopyImageSubData 1 srcTex tgt srcLevel srcRect.x srcRect.y srcZ
        dstTex tgt dstLevel dstPos.x dstPos.y dstZ srcRect.w srcRect.h depth]
    else if caps.NV_copy_image then
      Except.ok [GLCall.glCopyImageSubData 2 srcTex tgt srcLevel srcRect.x srcRect.y srcZ
        dstTex tgt dstLevel dstPos.x dstPos.y dstZ srcRect.w srcRect.h depth]
    else
      Except.ok []

/-- C-style 32-bit bitwise complement, as applied to the int attribute
masks in the BIND_INPUT_LAYOUT case. -/
def not32 (x : Nat) : Nat := x ^^^ (2 ^ 32 - 1)

/-- A render command, the tagged union GLRRenderCommand of the source.
Payloads mirror the fields read by PerformRenderPass; float payloads that
are passed through unchanged are opaque numeric tokens. -/
inductive GLRRenderCommand where
  | DEPTH (enabled write : Bool) (func : Nat)
  | BLEND (enabled : Bool) (funcColor funcAlpha srcColor dstColor srcAlpha dstAlpha : Nat)
      (mask : Nat)
  | CLEAR (clearMask : Nat) (clearColor : Nat) (clearZ : Nat) (clearStencil : Nat)
  | BLENDCOLOR (color : Nat)
  | VIEWPORT (x y w h : Int) (minZ maxZ : Nat)
  | SCISSOR (x y w h : Int)
  | UNIFORM4F (loc : Option Int) (name : Option Nat) (count : Nat) (v : Nat)
  | UNIFORM4I (loc : Option Int) (name : Option Nat) (count : Nat) (v : Nat)
  | UNIFORMMATRIX (loc : Option Int) (name : Option Nat) (m : Nat)
  | STENCILFUNC (enabled : Bool) (func ref compareMask : Nat)
  | STENCILOP (sFail zFail pass writeMask : Nat)
  | BINDTEXTURE (slot : Nat) (texture : Option GLRTexture)
  | BIND_FB_TEXTURE (slot : Nat) (framebuffer : GLRFramebuffer) (aspect : Nat)
  | BINDPROGRAM (program : GLRProgram)
  | BIND_INPUT_LAYOUT (inputLayout : GLRInputLayout) (offset : Nat)
  | BIND_BUFFER (target : Nat) (buffer : Option GLRBuffer)
  | GENMIPS
  | DRAW (mode first count : Nat)
  | DRAW_INDEXED (mode count indexType indices : Nat) (instances : Nat)
  | TEXTURESAMPLER (wrapS wrapT magFilter minFilter : Nat) (anisotropy : Nat)
  | TEXTURELOD (minLod maxLod lodBias : Nat)
  | RASTER (cullEnable : Bool) (frontFace cullFace : Nat) (ditherEnable : Bool)
deriving DecidableEq

/-- A RENDER step: optional target framebuffer plus the command list. -/
structure GLRStepRender where
  framebuffer : Option GLRFramebuffer
  commands : List GLRRenderCommand
deriving DecidableEq

/-- The state-filtering locals of PerformRenderPass (lines 386-395):
current program, the active-texture compare value (initialized to
GL_TEXTURE0 and thereafter holding raw slot numbers), the enabled-attribute
mask, and the two buffer bind caches initialized to (GLuint)-1. -/
structure PassLocals where
  curProgram : Option GLRProgram
  activeTexture : Nat
  attrMask : Nat
  curArrayBuffer : Nat
  curElemArrayBuffer : Nat
deriving DecidableEq

/-- Uniform location resolution (lines 464-467 and analogues): take the
pre-cached location if present, else -1; a name overrides it with a lookup
against the currently bound program.  The source dereferences curProgram
unconditionally here (a program is assumed bound before named-uniform
commands); an unbound program is modelled as the not-found location -1. -/
def resolveUniformLoc (L : PassLocals) (loc : Option Int) (name : Option Nat) : Int :=
  let l : Int := match loc with
    | some v => v
    | none => -1
  match name with
  | some nm =>
    match L.curProgram with
    | some p => p.GetUniformLoc nm
    | none => -1
  | none => l

/-- The per-index enable/disable loop of the BIND_INPUT_LAYOUT case
(lines 573-580): for i in [0, n) emit glEnableVertexAttribArray i when bit
i of `enable` is set, then glDisableVertexAttribArray i when bit i of
`disable` is set. -/
def attrLoopCalls (enable disable : Nat) : Nat → List GLCall
  | 0 => []
  | n + 1 =>
    attrLoopCalls enable disable n
      ++ ((if enable.testBit n then [GLCall.glEnableVertexAttribArray n] else [])
        ++ (if disable.testBit n then [GLCall.glDisableVertexAttribArray n] else []))

/-- The pass-end attribute disable loop (lines 656-660): for i in [0, n)
emit glDisableVertexAttribArray i when bit i of attrMask is set. -/
def endPassDisableCalls (attrMask : Nat) : Nat → List GLCall
  | 0 => []
  | n + 1 =>
    endPassDisableCalls attrMask n
      ++ (if attrMask &&& (1 <<< n) ≠ 0 then [GLCall.glDisableVertexAttribArray n] else [])

/-- One iteration of the command switch of PerformRenderPass
(lines 398-654), mapped over the locals; emitted device calls are returned
in source order.  `curFramebuffer_` and `curFBHeight_` are the runner
members read by the VIEWPORT and SCISSOR Y-flip. -/
def execCommand (caps : GLCaps) (curFramebuffer_ : Option GLRFramebuffer)
    (curFBHeight_ : Int) (L : PassLocals) :
    GLRRenderCommand → PassLocals × List GLCall
  | GLRRenderCommand.DEPTH enabled write func =>
    if enabled then
      (L, [GLCall.glEnable GL_DEPTH_TEST, GLCall.glDepthMask write, GLCall.glDepthFunc func])
    else
      (L, [GLCall.glDisable GL_DEPTH_TEST])
  | GLRRenderCommand.BLEND enabled funcColor funcAlpha srcColor dstColor srcAlpha dstAlpha mask =>
    let blendCalls :=
      if enabled then
        [GLCall.glEnable GL_BLEND,
         GLCall.glBlendEquationSeparate funcColor funcAlpha,
         GLCall.glBlendFuncSeparate srcColor dstColor srcAlpha dstAlpha]
      else [GLCall.glDisable GL_BLEND]
    (L, blendCalls ++ [GLCall.glColorMask (mask &&& 1 ≠ 0) ((mask >>> 1) &&& 1 ≠ 0)
        ((mask >>> 2) &&& 1 ≠ 0) ((mask >>> 3) &&& 1 ≠ 0)])
  | GLRRenderCommand.CLEAR clearMask clearColor clearZ clearStencil =>
    (L, [GLCall.glDisable GL_SCISSOR_TEST, GLCall.glColorMask true true true true]
      ++ (if clearMask &&& GL_COLOR_BUFFER_BIT ≠ 0 then [GLCall.glClearColor clearColor] else [])
      ++ (if clearMask &&& GL_DEPTH_BUFFER_BIT ≠ 0 then [GLCall.glClearDepth clearZ] else [])
      ++ (if clearMask &&& GL_STENCIL_BUFFER_BIT ≠ 0 then [GLCall.glClearStencil clearStencil] else [])
      ++ [GLCall.glClear clearMask, GLCall.glEnable GL_SCISSOR_TEST])
  | GLRRenderCommand.BLENDCOLOR color =>
    (L, [GLCall.glBlendColor color])
  | GLRRenderCommand.VIEWPORT x y w h minZ maxZ =>
    let y' := if curFramebuffer_.isNone then curFBHeight_ - y - h else y
    (L, [GLCall.glViewport x y' w h, GLCall.glDepthRange minZ maxZ])
  | GLRRenderCommand.SCISSOR x y w h =>
    let y' := if curFramebuffer_.isNone then curFBHeight_ - y - h else y
    (L, [GLCall.glScissor x y' w h])
  | GLRRenderCommand.UNIFORM4F loc name count v =>
    let l := resolveUniformLoc L loc name
    if l ≥ 0 then (L, [GLCall.glUniformF l count v]) else (L, [])
  | GLRRenderCommand.UNIFORM4I loc name count v =>
    let l := resolveUniformLoc L loc name
    if l ≥ 0 then (L, [GLCall.glUniformI l count v]) else (L, [])
  | GLRRenderCommand.UNIFORMMATRIX loc name m =>
    let l := resolveUniformLoc L loc name
    if l ≥ 0 then (L, [GLCall.glUniformMatrix4fv l m]) else (L, [])
  | GLRRenderCommand.STENCILFUNC enabled func ref compareMask =>
    if enabled then
      (L, [GLCall.glEnable GL_STENCIL_TEST, GLCall.glStencilFunc func ref compareMask])
    else
      (L, [GLCall.glDisable GL_STENCIL_TEST])
  | GLRRenderCommand.STENCILOP sFail zFail pass writeMask =>
    (L, [GLCall.glStencilOp sFail zFail pass, GLCall.glStencilMask writeMask])
  | GLRRenderCommand.BINDTEXTURE slot texture =>
    let p : PassLocals × List GLCall :=
      if slot ≠ L.activeTexture then
        ({ L with activeTexture := slot }, [GLCall.glActiveTexture (GL_TEXTURE0 + slot)])
      else (L, [])
    let bindCall := match texture with
      | some t => GLCall.glBindTexture t.target t.texture
      | none => GLCall.glBindTexture GL_TEXTURE_2D 0
    (p.1, p.2 ++ [bindCall])
  | GLRRenderCommand.BIND_FB_TEXTURE slot framebuffer aspect =>
    let p : PassLocals × List GLCall :=
      if slot ≠ L.activeTexture then
        ({ L with activeTexture := slot }, [GLCall.glActiveTexture (GL_TEXTURE0 + slot)])
      else (L, [])
    let bindCalls :=
      if aspect = GL_COLOR_BUFFER_BIT then
        [GLCall.glBindTexture GL_TEXTURE_2D framebuffer.color_texture]
      else []
    (p.1, p.2 ++ bindCalls)
  | GLRRenderCommand.BINDPROGRAM program =>
    ({ L with curProgram := some program }, [GLCall.glUseProgram program.program])
  | GLRRenderCommand.BIND_INPUT_LAYOUT inputLayout offset =>
    let enable := inputLayout.semanticsMask_ &&& not32 L.attrMask
    let disable := not32 inputLayout.semanticsMask_ &&& L.attrMask
    let loopCalls := attrLoopCalls enable disable 7
    let ptrCalls := inputLayout.entries.map (fun e =>
      GLCall.glVertexAttribPointer e.location e.count e.type e.normalized e.stride
        (offset + e.offset))
    ({ L with attrMask := inputLayout.semanticsMask_ }, loopCalls ++ ptrCalls)
  | GLRRenderCommand.BIND_BUFFER target buffer =>
    let buf := match buffer with
      | some b => b.buffer
      | none => 0
    if target = GL_ARRAY_BUFFER then
      if buf ≠ L.curArrayBuffer then
        ({ L with curArrayBuffer := buf }, [GLCall.glBindBuffer GL_ARRAY_BUFFER buf])
      else (L, [])
    else if target = GL_ELEMENT_ARRAY_BUFFER then
      if buf ≠ L.curElemArrayBuffer then
        ({ L with curElemArrayBuffer := buf }, [GLCall.glBindBuffer GL_ELEMENT_ARRAY_BUFFER buf])
      else (L, [])
    else
      (L, [GLCall.glBindBuffer target buf])
  | GLRRenderCommand.GENMIPS =>
    (L, [GLCall.glGenerateMipmap GL_TEXTURE_2D])
  | GLRRenderCommand.DRAW mode first count =>
    (L, [GLCall.glDrawArrays mode first count])
  | GLRRenderCommand.DRAW_INDEXED mode count indexType indices instances =>
    if instances = 1 then
      (L, [GLCall.glDrawElements mode count indexType indices])
    else (L, [])
  | GLRRenderCommand.TEXTURESAMPLER wrapS wrapT magFilter minFilter anisotropy =>
    (L, [GLCall.glTexParameteri GL_TEXTURE_2D 10242 wrapS,
         GLCall.glTexParameteri GL_TEXTURE_2D 10243 wrapT,
         GLCall.glTexParameteri GL_TEXTURE_2D 10240 magFilter,
         GLCall.glTexParameteri GL_TEXTURE_2D 10241 minFilter]
      ++ (if anisotropy ≠ 0 then [GLCall.glTexParameterf GL_TEXTURE_2D 34046 anisotropy] else []))
  | GLRRenderCommand.TEXTURELOD minLod maxLod lodBias =>
    (L, [GLCall.glTexParameterf GL_TEXTURE_2D 33082 minLod,
         GLCall.glTexParameterf GL_TEXTURE_2D 33083 maxLod]
      ++ (if !caps.usingGLES2 then [GLCall.glTexParameterf GL_TEXTURE_2D 34049 lodBias] else []))
  | GLRRenderCommand.RASTER cullEnable frontFace cullFace ditherEnable =>
    let cullCalls :=
      if cullEnable then
        [GLCall.glEnable GL_CULL_FACE, GLCall.glFrontFace frontFace,
         GLCall.glCullFace cullFace]
      else [GLCall.glDisable GL_CULL_FACE]
    (L, cullCalls
      ++ (if ditherEnable then [GLCall.glEnable GL_DITHER] else [GLCall.glDisable GL_DITHER]))

/-- Replay a command list in order, accumulating locals and the trace. -/
def execCommands (caps : GLCaps) (fb : Option GLRFramebuffer) (fbH : Int) :
    PassLocals → List GLRRenderCommand → PassLocals × List GLCall
  | L, [] => (L, [])
  | L, c :: cs =>
    let r := execCommand caps fb fbH L c
    let r2 := execCommands caps fb fbH r.1 cs
    (r2.1, r.2 ++ r2.2)

/-- GLQueueRunner::PerformBindFramebufferAsRenderTarget (lines 732-753):
derive the active target dimensions, remember the target in curFB_, and
either bind the framebuffer (through the cached-handle bind) or unbind to
the default backbuffer. -/
def PerformBindFramebufferAsRenderTarget (caps : GLCaps) (st : GLQueueRunnerState)
    (pass : GLRStepRender) : GLQueueRunnerState × List GLCall :=
  let st := match pass.framebuffer with
    | some fb => { st with curFBWidth_ := fb.width, curFBHeight_ := fb.height }
    | none => { st with curFBWidth_ := st.targetWidth_, curFBHeight_ := st.targetHeight_ }
  let st := { st with curFB_ := pass.framebuffer }
  match st.curFB_ with
  | some fb => fbo_bind_fb_target caps st false fb.framebuf
  | none => fbo_unbind caps st

/-- GLQueueRunner::PerformRenderPass (lines 361-668): an empty command list
is a no-op; otherwise bind the target, enable scissor, bind the global VAO,
reset the active texture unit, replay the commands, and run the
unconditional pass-end reset (disable the attributes of the final mask,
restore texture unit 0, clear both buffer bindings, unbind the VAO,
disable scissor). -/
def PerformRenderPass (caps : GLCaps) (st : GLQueueRunnerState) (step : GLRStepRender) :
    GLQueueRunnerState × List GLCall :=
  if step.commands.isEmpty then (st, [])
  else
    let r := PerformBindFramebufferAsRenderTarget caps st step
    let st := r.1
    let L0 : PassLocals :=
      { curProgram := none, activeTexture := GL_TEXTURE0, attrMask := 0,
        curArrayBuffer := UINT32_MAX, curElemArrayBuffer := UINT32_MAX }
    let r2 := execCommands caps st.curFramebuffer_ st.curFBHeight_ L0 step.commands
    let L := r2.1
    let endCalls :=
      endPassDisableCalls L.attrMask 7
      ++ (if L.activeTexture ≠ GL_TEXTURE0 then [GLCall.glActiveTexture GL_TEXTURE0] else [])
      ++ [GLCall.glBindBuffer GL_ARRAY_BUFFER 0, GLCall.glBindBuffer GL_ELEMENT_ARRAY_BUFFER 0,
          GLCall.glBindVertexArray 0, GLCall.glDisable GL_SCISSOR_TEST]
    (st, r.2 ++ [GLCall.glEnable GL_SCISSOR_TEST, GLCall.glBindVertexArray st.globalVAO_,
                 GLCall.glActiveTexture GL_TEXTURE0] ++ r2.2 ++ endCalls)

/-- Number of glBindTexture calls in a trace. -/
def countBindTex (cs : List GLCall) : Nat :=
  cs.countP (fun c => match c with
    | GLCall.glBindTexture _ _ => true
    | _ => false)

/-- Texture-binding commands must name a texture unit the device has
(GL_TEXTURE0 + slot must be a valid unit enum); all other commands are
unconstrained. -/
def cmdSlotOk : GLRRenderCommand → Bool
  | GLRRenderCommand.BINDTEXTURE slot _ => decide (slot < 32)
  | GLRRenderCommand.BIND_FB_TEXTURE slot _ _ => decide (slot < 32)
  | _ => true

/-- The device state reached by running a render pass from device state d0. -/
def passFinalDevice (caps : GLCaps) (st : GLQueueRunnerState) (step : GLRStepRender)
    (d0 : DeviceState) : DeviceState :=
  applyCalls d0 (PerformRenderPass caps st step).2

/-- All vertex-attribute arrays in the semantic-slot range [0, 7) are
disabled on the device. -/
def attrsCleared (d : DeviceState) : Prop :=
  ∀ i < 7, d.attrEnabled i = false

instance (d : DeviceState) : Decidable (attrsCleared d) :=
  inferInstanceAs (Decidable (∀ i < 7, d.attrEnabled i = false))

/-- The invariant relating the pass locals to the device state while a
render pass replays its commands: the device's enabled attributes in the
semantic range agree with the local attrMask, and whenever the local
active-texture compare value still holds its initial GL_TEXTURE0 the
device active unit really is GL_TEXTURE0. -/
def passInv (L : PassLocals) (d : DeviceState) : Prop :=
  (∀ i < 7, d.attrEnabled i = L.attrMask.testBit i) ∧
  (L.activeTexture = GL_TEXTURE0 → d.activeUnit = GL_TEXTURE0)

/-- A GLES tier with packed depth-stencil unsupported (the separate
renderbuffer path). -/
def capsGLESsep : GLCaps :=
  { usingGLES2 := true, IsGLES := true, GLES3 := true,
    ARB_framebuffer_object := false, EXT_framebuffer_object := false,
    NV_framebuffer_blit := false, OES_packed_depth_stencil := false,
    OES_depth24 := true, ARB_copy_image := false, NV_copy_image := false }

/-- A desktop tier with ARB framebuffer objects and ARB_copy_image. -/
def capsDesktop : GLCaps :=
  { usingGLES2 := false, IsGLES := false, GLES3 := false,
    ARB_framebuffer_object := true, EXT_framebuffer_object := true,
    NV_framebuffer_blit := false, OES_packed_depth_stencil := false,
    OES_depth24 := false, ARB_copy_image := true, NV_copy_image := false }

/-- A sample source framebuffer with color texture handle 1. -/
def fbSampleA : GLRFramebuffer :=
  { width := 16, height := 16, handle := 10, color_texture := 1,
    z_stencil_buffer := 11, z_buffer := 0, stencil_buffer := 0, framebuf := 10 }

/-- A sample destination framebuffer with color texture handle 2. -/
def fbSampleB : GLRFramebuffer :=
  { width := 16, height := 16, handle := 20, color_texture := 2,
    z_stencil_buffer := 21, z_buffer := 0, stencil_buffer := 0, framebuf := 20 }

/-- A 16 by 16 rectangle at the origin. -/
def rectSample : GLRect2D := { x := 0, y := 0, w := 16, h := 16 }

/-- The origin offset. -/
def offSample : GLOffset2D := { x := 0, y := 0 }

/-- A color-aspect copy step between two distinct framebuffers. -/
def stepCopyAB : GLRStepCopy :=
  { src := fbSampleA, dst := fbSampleB, aspectMask := GL_COLOR_BUFFER_BIT,
    srcRect := rectSample, dstPos := offSample }

/-- A depth-aspect copy step between two distinct framebuffers. -/
def stepCopyDepth : GLRStepCopy :=
  { src := fbSampleA, dst := fbSampleB, aspectMask := GL_DEPTH_BUFFER_BIT,
    srcRect := rectSample, dstPos := offSample }

/-- A sample texture bound by the render-pass samples. -/
def texSample : GLRTexture := { target := GL_TEXTURE_2D, texture := 5 }

/-- A fresh runner state targeting a 480 x 272 backbuffer. -/
def stSample : GLQueueRunnerState :=
  { currentDrawHandle_ := 0, currentReadHandle_ := 0, curFBWidth_ := 0,
    curFBHeight_ := 0, targetWidth_ := 480, targetHeight_ := 272,
    curFB_ := none, curFramebuffer_ := none, g_defaultFBO := 0,
    globalVAO_ := 1, nameCache_ := [] }

/-- A runner state whose process-wide default-FBO override is nonzero and
whose cached bind handles currently hold a framebuffer handle. -/
def stRetroarch : GLQueueRunnerState :=
  { stSample with g_defaultFBO := 5, currentDrawHandle_ := 7, currentReadHandle_ := 7 }

/-- A clean device state: unit GL_TEXTURE0 active, nothing enabled, nothing
bound. -/
def devClean : DeviceState :=
  { activeUnit := GL_TEXTURE0, attrEnabled := fun _ => false, arrayBuffer := 0,
    elemArrayBuffer := 0, scissorEnabled := false, boundVertexArray := 0,
    drawFramebuffer := 0, readFramebuffer := 0 }

/-- A render step consisting of two identical bind-texture commands on
slot 0. -/
def stepTexTwice : GLRStepRender :=
  { framebuffer := none,
    commands := [GLRRenderCommand.BINDTEXTURE 0 (some texSample),
                 GLRRenderCommand.BINDTEXTURE 0 (some texSample)] }

/-- An uninitialized framebuffer record (as allocated by the producer
before its CREATE_FRAMEBUFFER step runs). -/
def fbFresh : GLRFramebuffer :=
  { width := 512, height := 272, handle := 0, color_texture := 0,
    z_stencil_buffer := 0, z_buffer := 0, stencil_buffer := 0, framebuf := 0 }

/-- A name generator that has produced nothing yet. -/
def genFresh : NameGen := { next := 0 }

/-- Pass locals with attribute mask 5 (slots 0 and 2 enabled). -/
def localsMask5 : PassLocals :=
  { curProgram := none, activeTexture := GL_TEXTURE0, attrMask := 5,
    curArrayBuffer := UINT32_MAX, curElemArrayBuffer := UINT32_MAX }

/-- An input layout occupying slots 1 and 2 (mask 6), with no entries. -/
def layoutMask6 : GLRInputLayout := { entries := [], semanticsMask_ := 6 }

/-- A sample program record with no semantics, queries or initializers. -/
def programSample : GLRProgram :=
  { program := 0, semantics_ := [], queries_ := [], initialize_ := [], uniformCache := [] }

/-- A sample shader record in its pre-init state. -/
def shaderFresh : GLRShader := { shader := 0, valid := false }

theorem applyCalls_nil (d : DeviceState) : applyCalls d [] = d := rfl

theorem applyCalls_cons (d : DeviceState) (c : GLCall) (cs : List GLCall) :
    applyCalls d (c :: cs) = applyCalls (applyCall d c) cs := rfl

theorem applyCalls_append (d : DeviceState) (a b : List GLCall) :
    applyCalls d (a ++ b) = applyCalls (applyCalls d a) b := by
  simp [applyCalls, List.foldl_append]

/-- C1: for a CreateShader init step whose compilation fails, the source
intends to leave the Shader invalid (line 156), but line 158 then
unconditionally sets `valid` back to true, so after RunInitSteps processes
the failing step the Shader is marked valid. -/
theorem C1_failed_compile_leaves_shader_valid :
    (runInitStepCreateShader shaderFresh 7 false).valid = true := rfl

/-- C2: PerformCopy on a color-aspect copy step between two distinct
framebuffers issues a copy whose destination texture handle is the SOURCE
framebuffer's color texture (1), not the destination framebuffer's (2),
because line 679 initializes the dst local from step.copy.src. -/
theorem C2_copy_destination_resolved_from_source :
    PerformCopy capsDesktop stepCopyAB =
      Except.ok [GLCall.glCopyImageSubData 1 1 GL_TEXTURE_2D 0 0 0 0 1 GL_TEXTURE_2D 0
        0 0 0 16 16 1] ∧
    stepCopyAB.dst.color_texture = 2 := by
  constructor <;> rfl

/-- C4: every copy step whose aspect mask is the depth aspect hits the
fatal assertion path of PerformCopy: the step is rejected with an error
and no device copy call (color or otherwise) is issued. -/
theorem C4_depth_copy_rejected (caps : GLCaps) (step : GLRStepCopy)
    (h : step.aspectMask = GL_DEPTH_BUFFER_BIT) :
    PerformCopy caps step = Except.error "depth copies not yet supported - soon" := by
  unfold PerformCopy
  rw [h]
  norm_num [GL_DEPTH_BUFFER_BIT, GL_COLOR_BUFFER_BIT]

theorem C4_witness :
    PerformCopy capsDesktop stepCopyDepth =
      Except.error "depth copies not yet supported - soon" :=
  C4_depth_copy_rejected capsDesktop stepCopyDepth rfl

/-- C9: a CreateProgram init step with zero attached shaders takes the
fatal assertion path (an error, not a recoverable log), and every
non-fatal execution of the step has a positive shader count. -/
theorem C9_create_program_requires_shaders (program : GLRProgram) (progName : Nat)
    (shaders : List GLRShader) (linkOk : Bool) (uniformLoc : Nat → Int) :
    (shaders = [] →
      runInitStepCreateProgram program progName shaders linkOk uniformLoc =
        Except.error "cannot create a program with zero shaders") ∧
    (∀ r, runInitStepCreateProgram program progName shaders linkOk uniformLoc =
        Except.ok r → 0 < shaders.length) := by
  constructor
  · intro h
    subst h
    rfl
  · intro r h
    cases shaders with
    | nil => simp [runInitStepCreateProgram] at h
    | cons s rest => simp

theorem C9_witness :
    runInitStepCreateProgram programSample 3 [] true (fun _ => -1) =
      Except.error "cannot create a program with zero shaders" :=
  (C9_create_program_requires_shaders programSample 3 [] true (fun _ => -1)).1 rfl

theorem genNames_length (n : Nat) (g : NameGen) : (genNames n g).1.length = n := by
  induction n generalizing g with
  | zero => rfl
  | succ n ih => simp [genNames, ih]

theorem allocTextureNames_batchCalls (n : Nat) :
    ∀ (st : GLQueueRunnerState) (g : NameGen),
      (allocTextureNames n st g).2.2 =
        if n ≤ st.nameCache_.length then 0
        else (n - st.nameCache_.length + 15) / 16 := by
  induction n with
  | zero => intro st g; simp [allocTextureNames]
  | succ n ih =>
    intro st g
    rcases hc : st.nameCache_ with _ | ⟨a, rest⟩
    · simp [allocTextureNames, AllocTextureName, hc, ih, List.length_dropLast,
        genNames_length, TEXCACHE_NAME_CACHE_SIZE]
      split_ifs <;> omega
    · simp [allocTextureNames, AllocTextureName, hc, ih, List.length_dropLast]

/-- C8: starting from an empty name cache, N successive AllocTextureName
calls issue exactly ceiling(N / 16) underlying batch-generation calls,
where 16 is TEXCACHE_NAME_CACHE_SIZE. -/
theorem C8_batch_allocation_count (n : Nat) (st : GLQueueRunnerState) (g : NameGen)
    (hn : 1 ≤ n) (hempty : st.nameCache_ = []) :
    (allocTextureNames n st g).2.2 = (n + 15) / TEXCACHE_NAME_CACHE_SIZE := by
  rw [allocTextureNames_batchCalls, hempty]
  simp only [List.length_nil, TEXCACHE_NAME_CACHE_SIZE]
  split_ifs <;> omega

theorem C8_witness :
    (allocTextureNames 17 stSample genFresh).2.2 = (17 + 15) / TEXCACHE_NAME_CACHE_SIZE :=
  C8_batch_allocation_count 17 stSample genFresh (by decide) rfl

/-- C5: under a GLES device without packed depth-stencil storage,
InitCreateFramebuffer builds the separate-renderbuffer variant (combined
handle zero, nonzero depth and stencil renderbuffers), and destroying the
created framebuffer releases exactly the two separate renderbuffers and no
combined one. -/
theorem C5_separate_variant_create_destroy (caps : GLCaps) (fbo : GLRFramebuffer)
    (g : NameGen) (st : GLQueueRunnerState) (h1 : caps.usingGLES2 = true)
    (h2 : caps.IsGLES = true) (h3 : caps.OES_packed_depth_stencil = false) :
    (InitCreateFramebuffer caps fbo g st).1.z_stencil_buffer = 0 ∧
    (InitCreateFramebuffer caps fbo g st).1.z_buffer ≠ 0 ∧
    (InitCreateFramebuffer caps fbo g st).1.stencil_buffer ≠ 0 ∧
    (GLRFramebuffer.destroy caps (InitCreateFramebuffer caps fbo g st).1).deletedRenderbuffers =
      [(InitCreateFramebuffer caps fbo g st).1.z_buffer,
       (InitCreateFramebuffer caps fbo g st).1.stencil_buffer] := by
  simp [InitCreateFramebuffer, GLRFramebuffer.destroy, h1, h2, h3, NameGen.alloc]

theorem C5_witness :
    (InitCreateFramebuffer capsGLESsep fbFresh genFresh stSample).1.z_stencil_buffer = 0 ∧
    (InitCreateFramebuffer capsGLESsep fbFresh genFresh stSample).1.z_buffer ≠ 0 ∧
    (InitCreateFramebuffer capsGLESsep fbFresh genFresh stSample).1.stencil_buffer ≠ 0 ∧
    (GLRFramebuffer.destroy capsGLESsep
        (InitCreateFramebuffer capsGLESsep fbFresh genFresh stSample).1).deletedRenderbuffers =
      [(InitCreateFramebuffer capsGLESsep fbFresh genFresh stSample).1.z_buffer,
       (InitCreateFramebuffer capsGLESsep fbFresh genFresh stSample).1.stencil_buffer] :=
  C5_separate_variant_create_destroy capsGLESsep fbFresh genFresh stSample rfl rfl rfl

/-- C10: fbo_unbind always zeroes both cached framebuffer handles even
though the device was just bound to the (possibly nonzero) g_defaultFBO
override; consequently a following fbo_bind_fb_target request for handle 0
is elided by the cache (no call, no state change) although handle 0 is not
the framebuffer actually bound on the device. -/
theorem C10_unbind_zeroes_caches_despite_default_fbo (caps : GLCaps)
    (st : GLQueueRunnerState) (b : Bool) (d : DeviceState)
    (hsupp : caps.usingGLES2 = true ∨ caps.ARB_framebuffer_object = true ∨
      caps.IsGLES = true ∨ caps.EXT_framebuffer_object = true)
    (hfbo : st.g_defaultFBO ≠ 0) :
    (fbo_unbind caps st).1.currentDrawHandle_ = 0 ∧
    (fbo_unbind caps st).1.currentReadHandle_ = 0 ∧
    fbo_bind_fb_target caps (fbo_unbind caps st).1 b 0 = ((fbo_unbind caps st).1, []) ∧
    (applyCalls d (fbo_unbind caps st).2).drawFramebuffer = st.g_defaultFBO ∧
    (applyCalls d (fbo_unbind caps st).2).drawFramebuffer ≠ 0 := by
  refine ⟨rfl, rfl, ?_, ?_, ?_⟩
  · unfold fbo_bind_fb_target
    rcases h : fbo_get_fb_target caps b with ⟨c, t⟩
    cases c <;> simp [fbo_unbind]
  · rcases caps with ⟨gles2, isgles, gles3, arb, ext, nv, o1, o2, a1, n1⟩
    cases gles2 <;> cases arb <;> cases isgles <;> cases ext <;>
      simp_all [fbo_unbind, applyCalls, applyCall, GL_FRAMEBUFFER]
  · rcases caps with ⟨gles2, isgles, gles3, arb, ext, nv, o1, o2, a1, n1⟩
    cases gles2 <;> cases arb <;> cases isgles <;> cases ext <;>
      simp_all [fbo_unbind, applyCalls, applyCall, GL_FRAMEBUFFER]

theorem C10_witness :
    (fbo_unbind capsGLESsep stRetroarch).1.currentDrawHandle_ = 0 ∧
    (fbo_unbind capsGLESsep stRetroarch).1.currentReadHandle_ = 0 ∧
    fbo_bind_fb_target capsGLESsep (fbo_unbind capsGLESsep stRetroarch).1 false 0 =
      ((fbo_unbind capsGLESsep stRetroarch).1, []) ∧
    (applyCalls devClean (fbo_unbind capsGLESsep stRetroarch).2).drawFramebuffer =
      stRetroarch.g_defaultFBO ∧
    (applyCalls devClean (fbo_unbind capsGLESsep stRetroarch).2).drawFramebuffer ≠ 0 :=
  C10_unbind_zeroes_caches_despite_default_fbo capsGLESsep stRetroarch false devClean
    (Or.inl rfl) (by decide)

theorem fbo_bind_fb_target_trace (caps : GLCaps) (st : GLQueueRunnerState)
    (read : Bool) (name : Nat) :
    (fbo_bind_fb_target caps st read name).2 = [] ∨
    ∃ t n, (fbo_bind_fb_target caps st read name).2 = [GLCall.glBindFramebuffer t n] := by
  unfold fbo_bind_fb_target
  rcases h : fbo_get_fb_target caps read with ⟨c, t⟩
  cases c <;> dsimp <;> split_ifs <;> simp

theorem fbo_unbind_trace (caps : GLCaps) (st : GLQueueRunnerState) :
    (fbo_unbind caps st).2 = [] ∨
    ∃ t n, (fbo_unbind caps st).2 = [GLCall.glBindFramebuffer t n] := by
  unfold fbo_unbind
  dsimp
  split_ifs <;> simp

theorem PerformBindFB_trace_shape (caps : GLCaps) (st : GLQueueRunnerState)
    (p : GLRStepRender) :
    (PerformBindFramebufferAsRenderTarget caps st p).2 = [] ∨
    ∃ t n, (PerformBindFramebufferAsRenderTarget caps st p).2 =
      [GLCall.glBindFramebuffer t n] := by
  unfold PerformBindFramebufferAsRenderTarget
  rcases p with ⟨fb?, cmds⟩
  rcases fb? with _ | fb
  · exact fbo_unbind_trace caps _
  · exact fbo_bind_fb_target_trace caps _ false fb.framebuf

theorem countBindTex_nil : countBindTex [] = 0 := rfl

theorem countBindTex_append (a b : List GLCall) :
    countBindTex (a ++ b) = countBindTex a + countBindTex b := by
  simp [countBindTex, List.countP_append]

theorem countBindTex_bindFB (caps : GLCaps) (st : GLQueueRunnerState)
    (p : GLRStepRender) :
    countBindTex (PerformBindFramebufferAsRenderTarget caps st p).2 = 0 := by
  rcases PerformBindFB_trace_shape caps st p with h | ⟨t, n, h⟩ <;> rw [h] <;> rfl

theorem countBindTex_execCommand_bindtex (caps : GLCaps) (fb : Option GLRFramebuffer)
    (fbH : Int) (L : PassLocals) (slot : Nat) (tex : Option GLRTexture) :
    countBindTex (execCommand caps fb fbH L (GLRRenderCommand.BINDTEXTURE slot tex)).2 = 1 := by
  simp only [execCommand]
  split_ifs <;> cases tex <;> simp [countBindTex]

theorem countBindTex_execCommands_replicate (caps : GLCaps) (fb : Option GLRFramebuffer)
    (fbH : Int) (slot : Nat) (tex : Option GLRTexture) :
    ∀ (n : Nat) (L : PassLocals),
      countBindTex (execCommands caps fb fbH L
        (List.replicate n (GLRRenderCommand.BINDTEXTURE slot tex))).2 = n := by
  intro n
  induction n with
  | zero => intro L; rfl
  | succ n ih =>
    intro L
    rw [List.replicate_succ]
    simp only [execCommands]
    rw [countBindTex_append, countBindTex_execCommand_bindtex, ih]
    omega

theorem countBindTex_endPass (A : Nat) : ∀ n, countBindTex (endPassDisableCalls A n) = 0 := by
  intro n
  induction n with
  | zero => rfl
  | succ n ih =>
    simp only [endPassDisableCalls]
    rw [countBindTex_append, ih]
    split_ifs <;> rfl

/-- C3 counterexample: a render pass whose command list is two identical
bind-texture commands on the same slot with the same texture issues two
device texture-bind calls, not one: the executor has no per-slot texture
dedup cache, only the active-texture-unit switch is deduplicated. -/
theorem C3_counterexample_two_binds :
    countBindTex (PerformRenderPass capsGLESsep stSample stepTexTwice).2 ≠ 1 := by decide

/-- C3 (amended): a sequence of N identical bind-texture commands targeting
the same slot with the same texture causes exactly N device texture-bind
calls to be issued by PerformRenderPass (the dedup applies only to the
active-texture-unit switch, not to glBindTexture itself). -/
theorem C3_bindtexture_bind_per_command (caps : GLCaps) (st : GLQueueRunnerState)
    (fb? : Option GLRFramebuffer) (slot : Nat) (tex : Option GLRTexture) (N : Nat)
    (hN : 1 ≤ N) :
    countBindTex (PerformRenderPass caps st
      { framebuffer := fb?,
        commands := List.replicate N (GLRRenderCommand.BINDTEXTURE slot tex) }).2 = N := by
  unfold PerformRenderPass
  have hne : (List.replicate N (GLRRenderCommand.BINDTEXTURE slot tex)).isEmpty = false := by
    cases N with
    | zero => omega
    | succ n => rfl
  simp only [hne, Bool.false_eq_true, if_false]
  have hpro : ∀ v : Nat, countBindTex [GLCall.glEnable GL_SCISSOR_TEST,
      GLCall.glBindVertexArray v, GLCall.glActiveTexture GL_TEXTURE0] = 0 := fun _ => rfl
  have htail : countBindTex [GLCall.glBindBuffer GL_ARRAY_BUFFER 0,
      GLCall.glBindBuffer GL_ELEMENT_ARRAY_BUFFER 0, GLCall.glBindVertexArray 0,
      GLCall.glDisable GL_SCISSOR_TEST] = 0 := rfl
  have hact : ∀ (b : Prop) (inst : Decidable b),
      countBindTex (if b then [GLCall.glActiveTexture GL_TEXTURE0] else []) = 0 := by
    intro b inst
    split_ifs <;> rfl
  simp only [countBindTex_append, countBindTex_bindFB, countBindTex_execCommands_replicate,
    countBindTex_endPass, hpro, htail, hact]
  omega

theorem C3_witness :
    countBindTex (PerformRenderPass capsGLESsep stSample
      { framebuffer := none,
        commands := List.replicate 3 (GLRRenderCommand.BINDTEXTURE 0 (some texSample)) }).2 = 3 :=
  C3_bindtexture_bind_per_command capsGLESsep stSample none 0 (some texSample) 3 (by decide)

theorem testBit_and_not32 (m A i : Nat) (h : i < 32) :
    (m &&& not32 A).testBit i = (m.testBit i && !(A.testBit i)) := by
  have h32 : Nat.testBit 4294967295 i = true := by
    rw [show (4294967295 : Nat) = 2 ^ 32 - 1 by norm_num, Nat.testBit_two_pow_sub_one]
    simp [h]
  simp [not32, Nat.testBit_and, Nat.testBit_xor, h32]

theorem testBit_not32_and (m A i : Nat) (h : i < 32) :
    (not32 m &&& A).testBit i = (!(m.testBit i) && A.testBit i) := by
  have h32 : Nat.testBit 4294967295 i = true := by
    rw [show (4294967295 : Nat) = 2 ^ 32 - 1 by norm_num, Nat.testBit_two_pow_sub_one]
    simp [h]
  simp [not32, Nat.testBit_and, Nat.testBit_xor, h32]

theorem attrLoopCalls_eq_flatMap (e dis : Nat) : ∀ n,
    attrLoopCalls e dis n = (List.range n).flatMap (fun j =>
      (if e.testBit j then [GLCall.glEnableVertexAttribArray j] else [])
        ++ (if dis.testBit j then [GLCall.glDisableVertexAttribArray j] else [])) := by
  intro n
  induction n with
  | zero => rfl
  | succ n ih =>
    rw [attrLoopCalls, List.range_succ, List.flatMap_append, ih]
    simp [List.flatMap]

theorem mem_attrLoopCalls_enable (e dis i n : Nat) :
    (GLCall.glEnableVertexAttribArray i ∈ attrLoopCalls e dis n) ↔
      (i < n ∧ e.testBit i = true) := by
  rw [attrLoopCalls_eq_flatMap]
  simp only [List.mem_flatMap, List.mem_range, List.mem_append]
  constructor
  · rintro ⟨j, hj, hmem | hmem⟩
    · by_cases hb : e.testBit j = true
      · simp [hb] at hmem
        subst hmem
        exact ⟨hj, hb⟩
      · simp [hb] at hmem
    · by_cases hb : dis.testBit j = true <;> simp [hb] at hmem
  · rintro ⟨h1, h2⟩
    exact ⟨i, h1, Or.inl (by simp [h2])⟩

theorem mem_attrLoopCalls_disable (e dis i n : Nat) :
    (GLCall.glDisableVertexAttribArray i ∈ attrLoopCalls e dis n) ↔
      (i < n ∧ dis.testBit i = true) := by
  rw [attrLoopCalls_eq_flatMap]
  simp only [List.mem_flatMap, List.mem_range, List.mem_append]
  constructor
  · rintro ⟨j, hj, hmem | hmem⟩
    · by_cases hb : e.testBit j = true <;> simp [hb] at hmem
    · by_cases hb : dis.testBit j = true
      · simp [hb] at hmem
        subst hmem
        exact ⟨hj, hb⟩
      · simp [hb] at hmem
  · rintro ⟨h1, h2⟩
    exact ⟨i, h1, Or.inr (by simp [h2])⟩

/-- C7: binding a new input layout with attribute mask B while mask A is
currently bound issues enable calls exactly for the slots of B minus A and
disable calls exactly for the slots of A minus B; a slot present in both
masks gets neither call. -/
theorem C7_input_layout_symmetric_difference (caps : GLCaps)
    (fb : Option GLRFramebuffer) (fbH : Int) (L : PassLocals)
    (layout : GLRInputLayout) (off : Nat) (hA : L.attrMask < 128)
    (hB : layout.semanticsMask_ < 128) (i : Nat) :
    ((GLCall.glEnableVertexAttribArray i ∈
        (execCommand caps fb fbH L (GLRRenderCommand.BIND_INPUT_LAYOUT layout off)).2) ↔
      (layout.semanticsMask_.testBit i = true ∧ L.attrMask.testBit i = false)) ∧
    ((GLCall.glDisableVertexAttribArray i ∈
        (execCommand caps fb fbH L (GLRRenderCommand.BIND_INPUT_LAYOUT layout off)).2) ↔
      (L.attrMask.testBit i = true ∧ layout.semanticsMask_.testBit i = false)) := by
  constructor
  · simp only [execCommand, List.mem_append, mem_attrLoopCalls_enable, List.mem_map]
    by_cases hi : i < 7
    · simp only [hi, true_and]
      rw [testBit_and_not32 _ _ _ (by omega : i < 32)]
      simp
    · simp only [hi, false_and, false_or]
      have hm : layout.semanticsMask_.testBit i = false := by
        apply Nat.testBit_lt_two_pow
        calc layout.semanticsMask_ < 128 := hB
          _ = 2 ^ 7 := rfl
          _ ≤ 2 ^ i := Nat.pow_le_pow_right (by norm_num) (by omega)
      simp [hm]
  · simp only [execCommand, List.mem_append, mem_attrLoopCalls_disable, List.mem_map]
    by_cases hi : i < 7
    · simp only [hi, true_and]
      rw [testBit_not32_and _ _ _ (by omega : i < 32)]
      simp
      tauto
    · simp only [hi, false_and, false_or]
      have hm : L.attrMask.testBit i = false := by
        apply Nat.testBit_lt_two_pow
        calc L.attrMask < 128 := hA
          _ = 2 ^ 7 := rfl
          _ ≤ 2 ^ i := Nat.pow_le_pow_right (by norm_num) (by omega)
      simp [hm]

theorem C7_witness :
    ((GLCall.glEnableVertexAttribArray 1 ∈
        (execCommand capsGLESsep none 0 localsMask5
          (GLRRenderCommand.BIND_INPUT_LAYOUT layoutMask6 0)).2) ↔
      (layoutMask6.semanticsMask_.testBit 1 = true ∧
        localsMask5.attrMask.testBit 1 = false)) ∧
    ((GLCall.glDisableVertexAttribArray 1 ∈
        (execCommand capsGLESsep none 0 localsMask5
          (GLRRenderCommand.BIND_INPUT_LAYOUT layoutMask6 0)).2) ↔
      (localsMask5.attrMask.testBit 1 = true ∧
        layoutMask6.semanticsMask_.testBit 1 = false)) :=
  C7_input_layout_symmetric_difference capsGLESsep none 0 localsMask5 layoutMask6 0
    (by decide) (by decide) 1

theorem and_one_shiftLeft_ne (A i : Nat) : (A &&& (1 <<< i) ≠ 0) ↔ A.testBit i = true := by
  have hpow : (1 : Nat) <<< i = 2 ^ i := by
    rw [Nat.shiftLeft_eq, one_mul]
  rw [hpow]
  constructor
  · intro h
    by_contra hbit
    apply h
    apply Nat.eq_of_testBit_eq
    intro j
    rw [Nat.testBit_and, Nat.zero_testBit]
    rcases eq_or_ne i j with rfl | hj
    · simp only [Bool.and_eq_false_iff]
      exact Or.inl (by simpa using hbit)
    · simp [Nat.testBit_two_pow_of_ne hj]
  · intro h hzero
    have h2 := congrArg (fun x => x.testBit i) hzero
    simp only [Nat.testBit_and, Nat.testBit_two_pow_self, Nat.zero_testBit,
      Bool.and_true] at h2
    exact absurd h2 (by simp [h])

theorem applyCalls_ite_enable (d : DeviceState) (b : Bool) (n j : Nat) :
    (applyCalls d (if b then [GLCall.glEnableVertexAttribArray n] else [])).attrEnabled j =
      if j = n ∧ b = true then true else d.attrEnabled j := by
  cases b
  · simp [applyCalls]
  · simp only [applyCalls, List.foldl_cons, List.foldl_nil]
    by_cases hj : j = n <;> simp [hj, applyCall]

theorem applyCalls_ite_disable (d : DeviceState) (b : Bool) (n j : Nat) :
    (applyCalls d (if b then [GLCall.glDisableVertexAttribArray n] else [])).attrEnabled j =
      if j = n ∧ b = true then false else d.attrEnabled j := by
  cases b
  · simp [applyCalls]
  · simp only [applyCalls, List.foldl_cons, List.foldl_nil]
    by_cases hj : j = n <;> simp [hj, applyCall]

theorem applyCalls_ite_enable_activeUnit (d : DeviceState) (b : Bool) (n : Nat) :
    (applyCalls d (if b then [GLCall.glEnableVertexAttribArray n] else [])).activeUnit =
      d.activeUnit := by
  cases b <;> rfl

theorem applyCalls_ite_disable_activeUnit (d : DeviceState) (b : Bool) (n : Nat) :
    (applyCalls d (if b then [GLCall.glDisableVertexAttribArray n] else [])).activeUnit =
      d.activeUnit := by
  cases b <;> rfl

theorem attrLoop_attrEnabled (e dis : Nat) : ∀ (n : Nat) (d : DeviceState) (j : Nat),
    (applyCalls d (attrLoopCalls e dis n)).attrEnabled j =
      if j < n then
        (if dis.testBit j = true then false
         else if e.testBit j = true then true else d.attrEnabled j)
      else d.attrEnabled j := by
  intro n
  induction n with
  | zero => intro d j; simp [attrLoopCalls, applyCalls]
  | succ n ih =>
    intro d j
    rw [attrLoopCalls, applyCalls_append, applyCalls_append, applyCalls_ite_disable,
      applyCalls_ite_enable, ih]
    by_cases hj : j = n
    · subst hj
      by_cases he : e.testBit j = true <;> by_cases hd : dis.testBit j = true <;>
        simp [he, hd, Nat.lt_irrefl, Nat.lt_succ_self]
    · have h1 : ¬(j = n ∧ dis.testBit n = true) := fun h => hj h.1
      have h2 : ¬(j = n ∧ e.testBit n = true) := fun h => hj h.1
      rw [if_neg h1, if_neg h2]
      by_cases hlt : j < n
      · rw [if_pos hlt, if_pos (by omega : j < n + 1)]
      · rw [if_neg hlt, if_neg (by omega : ¬j < n + 1)]

theorem attrLoop_activeUnit (e dis : Nat) : ∀ (n : Nat) (d : DeviceState),
    (applyCalls d (attrLoopCalls e dis n)).activeUnit = d.activeUnit := by
  intro n
  induction n with
  | zero => intro d; rfl
  | succ n ih =>
    intro d
    rw [attrLoopCalls, applyCalls_append, applyCalls_append,
      applyCalls_ite_disable_activeUnit, applyCalls_ite_enable_activeUnit, ih]

theorem applyCalls_iteP_disable (d : DeviceState) (P : Prop) [Decidable P] (n j : Nat) :
    (applyCalls d (if P then [GLCall.glDisableVertexAttribArray n] else [])).attrEnabled j =
      if j = n ∧ P then false else d.attrEnabled j := by
  by_cases hp : P
  · simp only [hp, if_true]
    simp only [applyCalls, List.foldl_cons, List.foldl_nil, applyCall]
    by_cases hj : j = n <;> simp [hj, hp]
  · simp [hp, applyCalls]

theorem applyCalls_iteP_disable_activeUnit (d : DeviceState) (P : Prop) [Decidable P]
    (n : Nat) :
    (applyCalls d (if P then [GLCall.glDisableVertexAttribArray n] else [])).activeUnit =
      d.activeUnit := by
  by_cases hp : P <;> simp [hp, applyCalls, applyCall]

theorem endPass_attrEnabled (A : Nat) : ∀ (n : Nat) (d : DeviceState) (j : Nat),
    (applyCalls d (endPassDisableCalls A n)).attrEnabled j =
      if j < n ∧ A.testBit j = true then false else d.attrEnabled j := by
  intro n
  induction n with
  | zero => intro d j; simp [endPassDisableCalls, applyCalls]
  | succ n ih =>
    intro d j
    rw [endPassDisableCalls, applyCalls_append, applyCalls_iteP_disable, ih]
    by_cases hj : j = n
    · subst hj
      by_cases hb : A &&& (1 <<< j) ≠ 0
      · rw [if_pos ⟨rfl, hb⟩, if_pos ⟨Nat.lt_succ_self j, (and_one_shiftLeft_ne A j).mp hb⟩]
      · rw [if_neg (fun h => hb h.2),
          if_neg (fun h => absurd h.1 (Nat.lt_irrefl j)),
          if_neg (fun h => hb ((and_one_shiftLeft_ne A j).mpr h.2))]
    · rw [if_neg (fun h => hj h.1)]
      by_cases hlt : j < n
      · by_cases hb : A.testBit j = true
        · rw [if_pos ⟨hlt, hb⟩, if_pos ⟨by omega, hb⟩]
        · rw [if_neg (fun h => hb h.2), if_neg (fun h => hb h.2)]
      · rw [if_neg (fun h => hlt h.1), if_neg (fun h => absurd h.1 (by omega))]

theorem endPass_activeUnit (A : Nat) : ∀ (n : Nat) (d : DeviceState),
    (applyCalls d (endPassDisableCalls A n)).activeUnit = d.activeUnit := by
  intro n
  induction n with
  | zero => intro d; rfl
  | succ n ih =>
    intro d
    rw [endPassDisableCalls, applyCalls_append, applyCalls_iteP_disable_activeUnit, ih]

theorem applyCalls_vap_map (off : Nat) (entries : List GLRInputLayoutEntry) :
    ∀ d : DeviceState,
      applyCalls d (entries.map (fun e => GLCall.glVertexAttribPointer e.location e.count
        e.type e.normalized e.stride (off + e.offset))) = d := by
  induction entries with
  | nil => intro d; rfl
  | cons e rest ih =>
    intro d
    rw [List.map_cons, applyCalls_cons]
    exact ih _

theorem passInv_of_fields {L L' : PassLocals} {d d' : DeviceState}
    (hinv : passInv L d) (hmask : L'.attrMask = L.attrMask)
    (hat : L'.activeTexture = L.activeTexture)
    (h1 : d'.attrEnabled = d.attrEnabled) (h2 : d'.activeUnit = d.activeUnit) :
    passInv L' d' := by
  obtain ⟨ha, hb⟩ := hinv
  constructor
  · intro i hi
    rw [h1, hmask]
    exact ha i hi
  · intro h
    rw [h2]
    exact hb (by rw [← hat]; exact h)

theorem execCommand_passInv (caps : GLCaps) (fb : Option GLRFramebuffer) (fbH : Int)
    (L : PassLocals) (c : GLRRenderCommand) (d : DeviceState)
    (hslot : cmdSlotOk c = true) (hinv : passInv L d) :
    passInv (execCommand caps fb fbH L c).1
      (applyCalls d (execCommand caps fb fbH L c).2) := by
  cases c with
  | DEPTH enabled write func =>
    cases enabled <;> exact passInv_of_fields hinv rfl rfl rfl rfl
  | BLEND enabled funcColor funcAlpha srcColor dstColor srcAlpha dstAlpha mask =>
    cases enabled <;> exact passInv_of_fields hinv rfl rfl rfl rfl
  | CLEAR clearMask clearColor clearZ clearStencil =>
    refine passInv_of_fields hinv rfl rfl ?_ ?_ <;>
      (simp only [execCommand]; split_ifs <;> rfl)
  | BLENDCOLOR color =>
    exact passInv_of_fields hinv rfl rfl rfl rfl
  | VIEWPORT x y w h minZ maxZ =>
    exact passInv_of_fields hinv rfl rfl rfl rfl
  | SCISSOR x y w h =>
    exact passInv_of_fields hinv rfl rfl rfl rfl
  | UNIFORM4F loc name count v =>
    simp only [execCommand]
    split <;> exact passInv_of_fields hinv rfl rfl rfl rfl
  | UNIFORM4I loc name count v =>
    simp only [execCommand]
    split <;> exact passInv_of_fields hinv rfl rfl rfl rfl
  | UNIFORMMATRIX loc name m =>
    simp only [execCommand]
    split <;> exact passInv_of_fields hinv rfl rfl rfl rfl
  | STENCILFUNC enabled func ref compareMask =>
    cases enabled <;> exact passInv_of_fields hinv rfl rfl rfl rfl
  | STENCILOP sFail zFail pass writeMask =>
    exact passInv_of_fields hinv rfl rfl rfl rfl
  | BINDTEXTURE slot texture =>
    simp only [cmdSlotOk, decide_eq_true_eq] at hslot
    cases texture <;> simp only [execCommand] <;> split_ifs with hs <;>
      refine ⟨fun i hi => hinv.1 i hi, fun h => ?_⟩ <;>
      first
        | exact hinv.2 h
        | exact absurd (show slot = 33984 from h) (by omega)
  | BIND_FB_TEXTURE slot framebuffer aspect =>
    simp only [cmdSlotOk, decide_eq_true_eq] at hslot
    simp only [execCommand]
    split_ifs with hs ha <;>
      refine ⟨fun i hi => hinv.1 i hi, fun h => ?_⟩ <;>
      first
        | exact hinv.2 h
        | exact absurd (show slot = 33984 from h) (by omega)
  | BINDPROGRAM program =>
    exact passInv_of_fields hinv rfl rfl rfl rfl
  | BIND_INPUT_LAYOUT inputLayout offset =>
    simp only [execCommand]
    constructor
    · intro i hi
      rw [applyCalls_append, applyCalls_vap_map, attrLoop_attrEnabled, if_pos hi,
        testBit_not32_and _ _ _ (by omega : i < 32),
        testBit_and_not32 _ _ _ (by omega : i < 32)]
      have hd := hinv.1 i hi
      by_cases hm : inputLayout.semanticsMask_.testBit i = true <;>
        by_cases ha : L.attrMask.testBit i = true <;> simp [hm, ha, hd]
    · intro h
      rw [applyCalls_append, applyCalls_vap_map, attrLoop_activeUnit]
      exact hinv.2 h
  | BIND_BUFFER target buffer =>
    cases buffer <;>
      (simp only [execCommand]
       split_ifs <;>
         refine passInv_of_fields hinv rfl rfl ?_ ?_ <;>
         first
           | rfl
           | (simp only [applyCalls, List.foldl_cons, List.foldl_nil, applyCall]
              split_ifs <;> rfl))
  | GENMIPS =>
    exact passInv_of_fields hinv rfl rfl rfl rfl
  | DRAW mode first count =>
    exact passInv_of_fields hinv rfl rfl rfl rfl
  | DRAW_INDEXED mode count indexType indices instances =>
    simp only [execCommand]
    split <;> exact passInv_of_fields hinv rfl rfl rfl rfl
  | TEXTURESAMPLER wrapS wrapT magFilter minFilter anisotropy =>
    refine passInv_of_fields hinv rfl rfl ?_ ?_ <;>
      (simp only [execCommand]; split_ifs <;> rfl)
  | TEXTURELOD minLod maxLod lodBias =>
    refine passInv_of_fields hinv rfl rfl ?_ ?_ <;>
      (simp only [execCommand]; split_ifs <;> rfl)
  | RASTER cullEnable frontFace cullFace ditherEnable =>
    cases cullEnable <;> cases ditherEnable <;>
      exact passInv_of_fields hinv rfl rfl rfl rfl

theorem execCommands_passInv (caps : GLCaps) (fb : Option GLRFramebuffer) (fbH : Int) :
    ∀ (cmds : List GLRRenderCommand) (L : PassLocals) (d : DeviceState),
      (∀ c ∈ cmds, cmdSlotOk c = true) → passInv L d →
      passInv (execCommands caps fb fbH L cmds).1
        (applyCalls d (execCommands caps fb fbH L cmds).2) := by
  intro cmds
  induction cmds with
  | nil => intro L d _ h; exact h
  | cons c cs ih =>
    intro L d hok hinv
    simp only [execCommands]
    rw [applyCalls_append]
    exact ih _ _ (fun x hx => hok x (List.mem_cons_of_mem _ hx))
      (execCommand_passInv caps fb fbH L c d (hok c (List.mem_cons_self _ _)) hinv)

theorem bindFB_preserves (caps : GLCaps) (st : GLQueueRunnerState) (p : GLRStepRender)
    (d : DeviceState) :
    (applyCalls d (PerformBindFramebufferAsRenderTarget caps st p).2).attrEnabled =
      d.attrEnabled ∧
    (applyCalls d (PerformBindFramebufferAsRenderTarget caps st p).2).activeUnit =
      d.activeUnit := by
  rcases PerformBindFB_trace_shape caps st p with h | ⟨t, n, h⟩ <;> rw [h]
  · exact ⟨rfl, rfl⟩
  · constructor <;>
      (simp only [applyCalls, List.foldl_cons, List.foldl_nil, applyCall];
       split_ifs <;> rfl)

theorem pass_prologue (caps : GLCaps) (st : GLQueueRunnerState) (p : GLRStepRender)
    (d0 : DeviceState) (v : Nat) (hattr0 : attrsCleared d0) :
    passInv { curProgram := none, activeTexture := GL_TEXTURE0, attrMask := 0,
              curArrayBuffer := UINT32_MAX, curElemArrayBuffer := UINT32_MAX }
      (applyCalls (applyCalls d0 (PerformBindFramebufferAsRenderTarget caps st p).2)
        [GLCall.glEnable GL_SCISSOR_TEST, GLCall.glBindVertexArray v,
         GLCall.glActiveTexture GL_TEXTURE0]) := by
  obtain ⟨h1, h2⟩ := bindFB_preserves caps st p d0
  constructor
  · intro i hi
    show (applyCalls d0 (PerformBindFramebufferAsRenderTarget caps st p).2).attrEnabled i =
      Nat.testBit 0 i
    rw [Nat.zero_testBit, congrFun h1 i]
    exact hattr0 i hi
  · intro _
    rfl

theorem pass_epilogue (L3 : PassLocals) (d3 : DeviceState) (hinv : passInv L3 d3) :
    attrsCleared (applyCalls (applyCalls (applyCalls d3 (endPassDisableCalls L3.attrMask 7))
      (if L3.activeTexture ≠ GL_TEXTURE0 then [GLCall.glActiveTexture GL_TEXTURE0] else []))
      [GLCall.glBindBuffer GL_ARRAY_BUFFER 0, GLCall.glBindBuffer GL_ELEMENT_ARRAY_BUFFER 0,
       GLCall.glBindVertexArray 0, GLCall.glDisable GL_SCISSOR_TEST]) ∧
    (applyCalls (applyCalls (applyCalls d3 (endPassDisableCalls L3.attrMask 7))
      (if L3.activeTexture ≠ GL_TEXTURE0 then [GLCall.glActiveTexture GL_TEXTURE0] else []))
      [GLCall.glBindBuffer GL_ARRAY_BUFFER 0, GLCall.glBindBuffer GL_ELEMENT_ARRAY_BUFFER 0,
       GLCall.glBindVertexArray 0, GLCall.glDisable GL_SCISSOR_TEST]).activeUnit =
      GL_TEXTURE0 ∧
    (applyCalls (applyCalls (applyCalls d3 (endPassDisableCalls L3.attrMask 7))
      (if L3.activeTexture ≠ GL_TEXTURE0 then [GLCall.glActiveTexture GL_TEXTURE0] else []))
      [GLCall.glBindBuffer GL_ARRAY_BUFFER 0, GLCall.glBindBuffer GL_ELEMENT_ARRAY_BUFFER 0,
       GLCall.glBindVertexArray 0, GLCall.glDisable GL_SCISSOR_TEST]).arrayBuffer = 0 ∧
    (applyCalls (applyCalls (applyCalls d3 (endPassDisableCalls L3.attrMask 7))
      (if L3.activeTexture ≠ GL_TEXTURE0 then [GLCall.glActiveTexture GL_TEXTURE0] else []))
      [GLCall.glBindBuffer GL_ARRAY_BUFFER 0, GLCall.glBindBuffer GL_ELEMENT_ARRAY_BUFFER 0,
       GLCall.glBindVertexArray 0, GLCall.glDisable GL_SCISSOR_TEST]).elemArrayBuffer = 0 ∧
    (applyCalls (applyCalls (applyCalls d3 (endPassDisableCalls L3.attrMask 7))
      (if L3.activeTexture ≠ GL_TEXTURE0 then [GLCall.glActiveTexture GL_TEXTURE0] else []))
      [GLCall.glBindBuffer GL_ARRAY_BUFFER 0, GLCall.glBindBuffer GL_ELEMENT_ARRAY_BUFFER 0,
       GLCall.glBindVertexArray 0, GLCall.glDisable GL_SCISSOR_TEST]).scissorEnabled =
      false := by
  have hA_attr : ∀ i, i < 7 →
      (applyCalls d3 (endPassDisableCalls L3.attrMask 7)).attrEnabled i = false := by
    intro i hi
    rw [endPass_attrEnabled]
    by_cases hb : L3.attrMask.testBit i = true
    · rw [if_pos ⟨hi, hb⟩]
    · rw [if_neg (fun h => hb h.2), hinv.1 i hi]
      simpa using hb
  have hA_act : (applyCalls d3 (endPassDisableCalls L3.attrMask 7)).activeUnit =
      d3.activeUnit := endPass_activeUnit _ 7 d3
  have hB_attr : ∀ i,
      (applyCalls (applyCalls d3 (endPassDisableCalls L3.attrMask 7))
        (if L3.activeTexture ≠ GL_TEXTURE0 then [GLCall.glActiveTexture GL_TEXTURE0]
         else [])).attrEnabled i =
      (applyCalls d3 (endPassDisableCalls L3.attrMask 7)).attrEnabled i := by
    intro i
    by_cases h : L3.activeTexture ≠ GL_TEXTURE0 <;> simp [h, applyCalls, applyCall]
  have hB_act :
      (applyCalls (applyCalls d3 (endPassDisableCalls L3.attrMask 7))
        (if L3.activeTexture ≠ GL_TEXTURE0 then [GLCall.glActiveTexture GL_TEXTURE0]
         else [])).activeUnit = GL_TEXTURE0 := by
    by_cases h : L3.activeTexture ≠ GL_TEXTURE0
    · simp [h, applyCalls, applyCall]
    · push_neg at h
      simp only [h, ne_eq, not_true_eq_false, if_false]
      show (applyCalls d3 (endPassDisableCalls L3.attrMask 7)).activeUnit = GL_TEXTURE0
      rw [hA_act]
      exact hinv.2 h
  refine ⟨fun i hi => ?_, ?_, rfl, rfl, rfl⟩
  · exact (hB_attr i).trans (hA_attr i hi)
  · exact hB_act

/-- C6: after a render pass with a nonempty command list runs (given its
texture-slot arguments are in the device's unit range and the device
started with no vertex attributes enabled in the semantic range), the
device is left with no enabled vertex attributes, the active texture unit
restored to GL_TEXTURE0, both dedicated buffer bindings cleared to zero
and scissor testing disabled - independent of which commands were
executed. -/
theorem C6_pass_end_reset (caps : GLCaps) (st : GLQueueRunnerState)
    (step : GLRStepRender) (d0 : DeviceState) (hne : step.commands ≠ [])
    (hok : ∀ c ∈ step.commands, cmdSlotOk c = true) (hattr0 : attrsCleared d0) :
    attrsCleared (passFinalDevice caps st step d0) ∧
    (passFinalDevice caps st step d0).activeUnit = GL_TEXTURE0 ∧
    (passFinalDevice caps st step d0).arrayBuffer = 0 ∧
    (passFinalDevice caps st step d0).elemArrayBuffer = 0 ∧
    (passFinalDevice caps st step d0).scissorEnabled = false := by
  have hempty : step.commands.isEmpty = false := by
    cases hc : step.commands
    · exact absurd hc hne
    · rfl
  simp only [passFinalDevice, PerformRenderPass, hempty, Bool.false_eq_true, if_false]
  simp only [applyCalls_append]
  exact pass_epilogue _ _
    (execCommands_passInv caps _ _ step.commands _ _ hok
      (pass_prologue caps st step d0 _ hattr0))

theorem C6_witness :
    attrsCleared (passFinalDevice capsGLESsep stSample stepTexTwice devClean) ∧
    (passFinalDevice capsGLESsep stSample stepTexTwice devClean).activeUnit = GL_TEXTURE0 ∧
    (passFinalDevice capsGLESsep stSample stepTexTwice devClean).arrayBuffer = 0 ∧
    (passFinalDevice capsGLESsep stSample stepTexTwice devClean).elemArrayBuffer = 0 ∧
    (passFinalDevice capsGLESsep stSample stepTexTwice devClean).scissorEnabled = false :=
  C6_pass_end_reset capsGLESsep stSample stepTexTwice devClean (by decide) (by decide)
    (by decide)
